import Mathlib

/-!
Shallow embedding of the hoarder repository's relational schema
(`packages/db/schema.ts`, drizzle-orm over SQLite) and of the
browser-extension `SavePage` component
(`packages/browser-extension/src/SavePage.tsx`).

Each table of the schema becomes a structure whose fields mirror the
declared columns (`.notNull()` columns are plain fields, nullable columns
are `Option`s, `integer(..., mode "timestamp")` columns are `Nat`,
`integer(..., mode "boolean")` columns are `Bool`, enum-constrained text
columns are inductive types).  A database state is a list of rows per
table; `DB.wf` states exactly the constraints the schema declares
(primary keys, `.unique()` columns and composite `unique().on(...)`
constraints, and `references(...)` foreign keys).  Deletion operations
implement the `onDelete` actions (`cascade` / `set null`) attached to the
foreign keys, and insertions fail when they would violate a declared
constraint.
-/

namespace Hoarder

/-- Enumeration `["admin", "user"]` of the `user.role` column. -/
inductive Role where
  | admin
  | user
deriving DecidableEq

/-- Enumeration `["pending", "failure", "success"]`, shared by the columns
`bookmarks.taggingStatus`, `bookmarkLinks.crawlStatus` and
`rssFeeds.lastFetchedStatus`. -/
inductive StatusEnum where
  | pending
  | failure
  | success
deriving DecidableEq

/-- Enumeration of `BookmarkTypes` (`link`, `text`, `asset`) constraining the
`bookmarks.type` column. -/
inductive BookmarkType where
  | link
  | text
  | asset
deriving DecidableEq

/-- Enumeration `AssetTypes` of the `assets.assetType` column. -/
inductive AssetType where
  | linkBannerImage
  | linkScreenshot
  | linkFullPageArchive
  | linkVideo
  | bookmarkAsset
  | unknown
deriving DecidableEq

/-- Enumeration `["image", "pdf"]` of the `bookmarkAssets.assetType` column. -/
inductive BookmarkAssetType where
  | image
  | pdf
deriving DecidableEq

/-- Enumeration `["ai", "human"]` of the `tagsOnBookmarks.attachedBy` column. -/
inductive AttachedBy where
  | ai
  | human
deriving DecidableEq

/-- Enumeration `["all", "text", "images"]` of the `customPrompts.appliesTo`
column. -/
inductive AppliesTo where
  | all
  | text
  | images
deriving DecidableEq

/-- Row of the `user` table. -/
structure User where
  id : String
  name : String
  email : String
  emailVerified : Option Nat
  image : Option String
  password : Option String
  role : Option Role
deriving DecidableEq

/-- Row of the `bookmarks` table. -/
structure Bookmark where
  id : String
  createdAt : Nat
  title : Option String
  archived : Bool
  favourited : Bool
  userId : String
  taggingStatus : Option StatusEnum
  summary : Option String
  note : Option String
  type : BookmarkType
deriving DecidableEq

/-- Row of the `bookmarkLinks` table; its `id` doubles as a foreign key to
`bookmarks.id` with `onDelete cascade`. -/
structure BookmarkLink where
  id : String
  url : String
  title : Option String
  description : Option String
  imageUrl : Option String
  favicon : Option String
  content : Option String
  htmlContent : Option String
  crawledAt : Option Nat
  crawlStatus : Option StatusEnum
deriving DecidableEq

/-- Row of the `bookmarkTexts` table; its `id` doubles as a foreign key to
`bookmarks.id` with `onDelete cascade`. -/
structure BookmarkText where
  id : String
  text : Option String
  sourceUrl : Option String
deriving DecidableEq

/-- Row of the `bookmarkAssets` table; its `id` doubles as a foreign key to
`bookmarks.id` with `onDelete cascade`. -/
structure BookmarkAsset where
  id : String
  assetType : BookmarkAssetType
  assetId : String
  content : Option String
  metadata : Option String
  fileName : Option String
  sourceUrl : Option String
deriving DecidableEq

/-- Row of the `assets` table. -/
structure Asset where
  id : String
  assetType : AssetType
  size : Nat
  contentType : Option String
  fileName : Option String
  bookmarkId : Option String
  userId : String
deriving DecidableEq

/-- Row of the `bookmarkTags` table. -/
structure BookmarkTag where
  id : String
  name : String
  createdAt : Nat
  userId : String
deriving DecidableEq

/-- Row of the `tagsOnBookmarks` join table, whose primary key is the pair
`(bookmarkId, tagId)`. -/
structure TagOnBookmark where
  bookmarkId : String
  tagId : String
  attachedAt : Option Nat
  attachedBy : AttachedBy
deriving DecidableEq

/-- Row of the `bookmarkLists` table, with the nullable self-referential
`parentId` column (`onDelete "set null"`). -/
structure BookmarkList where
  id : String
  name : String
  icon : String
  createdAt : Nat
  userId : String
  parentId : Option String
deriving DecidableEq

/-- Row of the `bookmarksInLists` join table, whose primary key is the pair
`(bookmarkId, listId)`. -/
structure BookmarkInList where
  bookmarkId : String
  listId : String
  addedAt : Option Nat
deriving DecidableEq

/-- Row of the `apiKey` table. -/
structure ApiKey where
  id : String
  name : String
  createdAt : Nat
  keyId : String
  keyHash : String
  userId : String
deriving DecidableEq

/-- Row of the `customPrompts` table. -/
structure CustomPrompt where
  id : String
  text : String
  enabled : Bool
  appliesTo : AppliesTo
  createdAt : Nat
  userId : String
deriving DecidableEq

/-- Row of the `rssFeeds` table. -/
structure RssFeed where
  id : String
  name : String
  url : String
  createdAt : Nat
  lastFetchedAt : Option Nat
  lastFetchedStatus : Option StatusEnum
  userId : String
deriving DecidableEq

/-- Row of the `rssFeedImports` table, with the composite unique constraint
`unique().on(rssFeedId, entryId)` and the nullable `bookmarkId` reference
(`onDelete "set null"`). -/
structure RssFeedImport where
  id : String
  createdAt : Nat
  entryId : String
  rssFeedId : String
  bookmarkId : Option String
deriving DecidableEq

/-- Database state: one list of rows per application table of the schema. -/
structure DB where
  users : List User
  bookmarks : List Bookmark
  bookmarkLinks : List BookmarkLink
  bookmarkTexts : List BookmarkText
  bookmarkAssets : List BookmarkAsset
  assets : List Asset
  bookmarkTags : List BookmarkTag
  tagsOnBookmarks : List TagOnBookmark
  bookmarkLists : List BookmarkList
  bookmarksInLists : List BookmarkInList
  apiKeys : List ApiKey
  customPrompts : List CustomPrompt
  rssFeeds : List RssFeed
  rssFeedImports : List RssFeedImport
deriving DecidableEq

/-- Boolean no-duplicate check on the image of a key function: true when no
two list elements have the same key.  This is how a (possibly composite)
primary key or unique constraint reads on a list-of-rows table. -/
def nodupBy {α β : Type} [DecidableEq β] (k : α → β) : List α → Bool
  | [] => true
  | x :: xs => !(xs.any fun y => decide (k y = k x)) && nodupBy k xs

/-- Boolean check of a nullable foreign-key column: the referenced id, when
present, must occur among the referenced table's ids. -/
def fkOpt (o : Option String) (ids : List String) : Bool :=
  o.all fun x => ids.contains x

/-- Ids of the `user` table rows. -/
def DB.userIds (db : DB) : List String := db.users.map (·.id)

/-- Ids of the `bookmarks` table rows. -/
def DB.bookmarkIds (db : DB) : List String := db.bookmarks.map (·.id)

/-- Ids of the `bookmarkTags` table rows. -/
def DB.tagIds (db : DB) : List String := db.bookmarkTags.map (·.id)

/-- Ids of the `bookmarkLists` table rows. -/
def DB.listIds (db : DB) : List String := db.bookmarkLists.map (·.id)

/-- Ids of the `rssFeeds` table rows. -/
def DB.feedIds (db : DB) : List String := db.rssFeeds.map (·.id)

/-- Constraints declared on the `user` table: primary key `id`, unique
`email`. -/
def usersWf (db : DB) : Bool :=
  nodupBy (·.id) db.users && nodupBy (·.email) db.users

/-- Constraints declared on `bookmarks`: primary key `id`, foreign key
`userId → user.id`. -/
def bookmarksWf (db : DB) : Bool :=
  nodupBy (·.id) db.bookmarks &&
  db.bookmarks.all fun b => db.userIds.contains b.userId

/-- Constraints declared on `bookmarkLinks`: primary key `id`, which also
references `bookmarks.id`. -/
def bookmarkLinksWf (db : DB) : Bool :=
  nodupBy (·.id) db.bookmarkLinks &&
  db.bookmarkLinks.all fun l => db.bookmarkIds.contains l.id

/-- Constraints declared on `bookmarkTexts`: primary key `id`, which also
references `bookmarks.id`. -/
def bookmarkTextsWf (db : DB) : Bool :=
  nodupBy (·.id) db.bookmarkTexts &&
  db.bookmarkTexts.all fun t => db.bookmarkIds.contains t.id

/-- Constraints declared on `bookmarkAssets`: primary key `id`, which also
references `bookmarks.id`. -/
def bookmarkAssetsWf (db : DB) : Bool :=
  nodupBy (·.id) db.bookmarkAssets &&
  db.bookmarkAssets.all fun a => db.bookmarkIds.contains a.id

/-- Constraints declared on `assets`: primary key `id`, nullable foreign key
`bookmarkId → bookmarks.id`, foreign key `userId → user.id`. -/
def assetsWf (db : DB) : Bool :=
  nodupBy (·.id) db.assets &&
  db.assets.all (fun a => fkOpt a.bookmarkId db.bookmarkIds) &&
  db.assets.all fun a => db.userIds.contains a.userId

/-- Constraints declared on `bookmarkTags`: primary key `id`, composite
unique `(userId, name)`, foreign key `userId → user.id`. -/
def bookmarkTagsWf (db : DB) : Bool :=
  nodupBy (·.id) db.bookmarkTags &&
  nodupBy (fun t => (t.userId, t.name)) db.bookmarkTags &&
  db.bookmarkTags.all fun t => db.userIds.contains t.userId

/-- Constraints declared on `tagsOnBookmarks`: composite primary key
`(bookmarkId, tagId)`, foreign keys into `bookmarks` and `bookmarkTags`. -/
def tagsOnBookmarksWf (db : DB) : Bool :=
  nodupBy (fun t => (t.bookmarkId, t.tagId)) db.tagsOnBookmarks &&
  db.tagsOnBookmarks.all (fun t => db.bookmarkIds.contains t.bookmarkId) &&
  db.tagsOnBookmarks.all fun t => db.tagIds.contains t.tagId

/-- Constraints declared on `bookmarkLists`: primary key `id`, foreign key
`userId → user.id`, nullable self-referential `parentId`. -/
def bookmarkListsWf (db : DB) : Bool :=
  nodupBy (·.id) db.bookmarkLists &&
  db.bookmarkLists.all (fun l => db.userIds.contains l.userId) &&
  db.bookmarkLists.all fun l => fkOpt l.parentId db.listIds

/-- Constraints declared on `bookmarksInLists`: composite primary key
`(bookmarkId, listId)`, foreign keys into `bookmarks` and `bookmarkLists`. -/
def bookmarksInListsWf (db : DB) : Bool :=
  nodupBy (fun x => (x.bookmarkId, x.listId)) db.bookmarksInLists &&
  db.bookmarksInLists.all (fun x => db.bookmarkIds.contains x.bookmarkId) &&
  db.bookmarksInLists.all fun x => db.listIds.contains x.listId

/-- Constraints declared on `apiKey`: primary key `id`, unique `keyId`,
composite unique `(name, userId)`, foreign key `userId → user.id`. -/
def apiKeysWf (db : DB) : Bool :=
  nodupBy (·.id) db.apiKeys &&
  nodupBy (·.keyId) db.apiKeys &&
  nodupBy (fun k => (k.name, k.userId)) db.apiKeys &&
  db.apiKeys.all fun k => db.userIds.contains k.userId

/-- Constraints declared on `customPrompts`: primary key `id`, foreign key
`userId → user.id`. -/
def customPromptsWf (db : DB) : Bool :=
  nodupBy (·.id) db.customPrompts &&
  db.customPrompts.all fun p => db.userIds.contains p.userId

/-- Constraints declared on `rssFeeds`: primary key `id`, foreign key
`userId → user.id`. -/
def rssFeedsWf (db : DB) : Bool :=
  nodupBy (·.id) db.rssFeeds &&
  db.rssFeeds.all fun f => db.userIds.contains f.userId

/-- Constraints declared on `rssFeedImports`: primary key `id`, composite
unique `(rssFeedId, entryId)`, foreign key `rssFeedId → rssFeeds.id`,
nullable foreign key `bookmarkId → bookmarks.id`. -/
def rssFeedImportsWf (db : DB) : Bool :=
  nodupBy (·.id) db.rssFeedImports &&
  nodupBy (fun r => (r.rssFeedId, r.entryId)) db.rssFeedImports &&
  db.rssFeedImports.all (fun r => db.feedIds.contains r.rssFeedId) &&
  db.rssFeedImports.all fun r => fkOpt r.bookmarkId db.bookmarkIds

/-- Well-formed database state: every constraint the schema declares holds
(primary keys, unique columns, composite unique constraints, foreign
keys). -/
def DB.wf (db : DB) : Bool :=
  usersWf db && bookmarksWf db && bookmarkLinksWf db && bookmarkTextsWf db &&
  bookmarkAssetsWf db && assetsWf db && bookmarkTagsWf db &&
  tagsOnBookmarksWf db && bookmarkListsWf db && bookmarksInListsWf db &&
  apiKeysWf db && customPromptsWf db && rssFeedsWf db && rssFeedImportsWf db

/-- Deletion of a user, applying every `onDelete` action the schema attaches
to foreign keys that (directly or transitively) reach the deleted `user`
row: `cascade` on `bookmarks`, `bookmarkTags`, `bookmarkLists`, `apiKeys`,
`assets`, `customPrompts` and `rssFeeds` via their `userId`; `cascade`
from deleted bookmarks into `bookmarkLinks` / `bookmarkTexts` /
`bookmarkAssets` / `assets` / `tagsOnBookmarks` / `bookmarksInLists`;
`cascade` from deleted tags, lists and feeds into their join/import rows;
and `set null` on `bookmarkLists.parentId` and
`rssFeedImports.bookmarkId`. -/
def deleteUser (db : DB) (uid : String) : DB :=
  let deadB := (db.bookmarks.filter fun b => b.userId == uid).map (·.id)
  let deadT := (db.bookmarkTags.filter fun t => t.userId == uid).map (·.id)
  let deadL := (db.bookmarkLists.filter fun l => l.userId == uid).map (·.id)
  let deadF := (db.rssFeeds.filter fun f => f.userId == uid).map (·.id)
  { users := db.users.filter fun u => u.id != uid
    bookmarks := db.bookmarks.filter fun b => b.userId != uid
    bookmarkLinks := db.bookmarkLinks.filter fun l => !(deadB.contains l.id)
    bookmarkTexts := db.bookmarkTexts.filter fun t => !(deadB.contains t.id)
    bookmarkAssets := db.bookmarkAssets.filter fun a => !(deadB.contains a.id)
    assets := db.assets.filter fun a =>
      a.userId != uid && !(a.bookmarkId.any fun b => deadB.contains b)
    bookmarkTags := db.bookmarkTags.filter fun t => t.userId != uid
    tagsOnBookmarks := db.tagsOnBookmarks.filter fun t =>
      !(deadB.contains t.bookmarkId) && !(deadT.contains t.tagId)
    bookmarkLists := (db.bookmarkLists.filter fun l => l.userId != uid).map
      fun l =>
        if l.parentId.any (fun p => deadL.contains p) then
          { l with parentId := none }
        else l
    bookmarksInLists := db.bookmarksInLists.filter fun x =>
      !(deadB.contains x.bookmarkId) && !(deadL.contains x.listId)
    apiKeys := db.apiKeys.filter fun k => k.userId != uid
    customPrompts := db.customPrompts.filter fun p => p.userId != uid
    rssFeeds := db.rssFeeds.filter fun f => f.userId != uid
    rssFeedImports := (db.rssFeedImports.filter fun r =>
        !(deadF.contains r.rssFeedId)).map
      fun r =>
        if r.bookmarkId.any (fun b => deadB.contains b) then
          { r with bookmarkId := none }
        else r }

/-- Deletion of a bookmark, applying the `onDelete` actions of the foreign
keys referencing `bookmarks.id`: `cascade` on `bookmarkLinks`,
`bookmarkTexts`, `bookmarkAssets`, `assets.bookmarkId`,
`tagsOnBookmarks` and `bookmarksInLists`; `set null` on
`rssFeedImports.bookmarkId`. -/
def deleteBookmark (db : DB) (bid : String) : DB :=
  { db with
    bookmarks := db.bookmarks.filter fun b => b.id != bid
    bookmarkLinks := db.bookmarkLinks.filter fun l => l.id != bid
    bookmarkTexts := db.bookmarkTexts.filter fun t => t.id != bid
    bookmarkAssets := db.bookmarkAssets.filter fun a => a.id != bid
    assets := db.assets.filter fun a => a.bookmarkId != some bid
    tagsOnBookmarks := db.tagsOnBookmarks.filter fun t => t.bookmarkId != bid
    bookmarksInLists := db.bookmarksInLists.filter fun x => x.bookmarkId != bid
    rssFeedImports := db.rssFeedImports.map fun r =>
      if r.bookmarkId == some bid then { r with bookmarkId := none } else r }

/-- Deletion of a bookmark list, applying the `onDelete` actions of the
foreign keys referencing `bookmarkLists.id`: `set null` on the
self-referential `parentId` of the remaining lists and `cascade` on
`bookmarksInLists`. -/
def deleteList (db : DB) (lid : String) : DB :=
  { db with
    bookmarkLists := (db.bookmarkLists.filter fun l => l.id != lid).map
      fun l =>
        if l.parentId == some lid then { l with parentId := none } else l
    bookmarksInLists := db.bookmarksInLists.filter fun x => x.listId != lid }

/-- Insertion into `rssFeedImports`, failing (returning `none`) when a
declared constraint would be violated: the primary key `id`, the
composite unique `(rssFeedId, entryId)`, or a foreign key. -/
def insertRssFeedImport (db : DB) (r : RssFeedImport) : Option DB :=
  if (db.rssFeedImports.map (·.id)).contains r.id then none
  else if db.rssFeedImports.any (fun x =>
      x.rssFeedId == r.rssFeedId && x.entryId == r.entryId) then none
  else if !(db.feedIds.contains r.rssFeedId) then none
  else if !(fkOpt r.bookmarkId db.bookmarkIds) then none
  else some { db with rssFeedImports := db.rssFeedImports ++ [r] }

/-- Insertion into `tagsOnBookmarks`, failing (returning `none`) when a
declared constraint would be violated: the composite primary key
`(bookmarkId, tagId)` or a foreign key. -/
def insertTagOnBookmark (db : DB) (t : TagOnBookmark) : Option DB :=
  if db.tagsOnBookmarks.any (fun x =>
      x.bookmarkId == t.bookmarkId && x.tagId == t.tagId) then none
  else if !(db.bookmarkIds.contains t.bookmarkId) then none
  else if !(db.tagIds.contains t.tagId) then none
  else some { db with tagsOnBookmarks := db.tagsOnBookmarks ++ [t] }

/-- Values supplied to an insert into `bookmarks`; a `none` in an optional
field means the column was omitted, so its declared default (or its
`$defaultFn`) applies. -/
structure BookmarkInsert where
  id : Option String := none
  createdAt : Option Nat := none
  title : Option String := none
  archived : Option Bool := none
  favourited : Option Bool := none
  userId : String
  taggingStatus : Option StatusEnum := none
  summary : Option String := none
  note : Option String := none
  type : BookmarkType
deriving DecidableEq

/-- Row stored by an insert into `bookmarks` after applying the schema's
defaults: `id` defaults to the generated cuid (`genId`), `createdAt` to
the insertion time (`now`), `archived` and `favourited` to `false`, and
`taggingStatus` to `"pending"`. -/
def mkBookmarkRow (genId : String) (now : Nat) (i : BookmarkInsert) :
    Bookmark :=
  { id := i.id.getD genId
    createdAt := i.createdAt.getD now
    title := i.title
    archived := i.archived.getD false
    favourited := i.favourited.getD false
    userId := i.userId
    taggingStatus := some (i.taggingStatus.getD .pending)
    summary := i.summary
    note := i.note
    type := i.type }

/-- Insertion into `bookmarks`: defaults are applied by `mkBookmarkRow`
(with `genId` the generated cuid and `now` the insertion time), and the
insert fails when the primary key or the `userId` foreign key would be
violated. -/
def insertBookmark (db : DB) (genId : String) (now : Nat)
    (i : BookmarkInsert) : Option DB :=
  let row := mkBookmarkRow genId now i
  if db.bookmarkIds.contains row.id then none
  else if !(db.userIds.contains row.userId) then none
  else some { db with bookmarks := db.bookmarks ++ [row] }

/-- Browser tab as returned by `chrome.tabs.query`: its `url` may be
absent. -/
structure Tab where
  url : Option String
deriving DecidableEq

/-- Argument record of the `createBookmark` mutation issued by the
browser-extension popup. -/
structure CreateBookmarkArgs where
  type : String
  url : String
deriving DecidableEq

/-- Observable effects of one run of `SavePage.runSave`: the error message
recorded through `setError` (if any) and the list of `createBookmark`
mutation calls issued. -/
structure SaveOutcome where
  error : Option String
  requests : List CreateBookmarkArgs
deriving DecidableEq

/-- Error message recorded by `SavePage.runSave` when no usable tab URL is
found. -/
def noUrlError : String := "Couldn\x27t find the URL of the current tab"

/-- Model of `SavePage.runSave`: destructure the first tab of the
`chrome.tabs.query` result; if `currentTab?.url` is truthy (a tab was
found, its `url` is present and non-empty) issue one `createBookmark`
call with `type "link"` and that url, otherwise record `noUrlError` and
issue no call. -/
def runSave (tabs : List Tab) : SaveOutcome :=
  match tabs.head? with
  | none => { error := some noUrlError, requests := [] }
  | some t =>
    match t.url with
    | none => { error := some noUrlError, requests := [] }
    | some u =>
      if u = "" then { error := some noUrlError, requests := [] }
      else { error := none, requests := [{ type := "link", url := u }] }

/-- Ids of every id-carrying table of the schema, concatenated (the join
tables `tagsOnBookmarks` and `bookmarksInLists` have no `id` column). -/
def allIds (db : DB) : List String :=
  db.userIds ++ db.bookmarkIds ++ db.bookmarkLinks.map (·.id) ++
  db.bookmarkTexts.map (·.id) ++ db.bookmarkAssets.map (·.id) ++
  db.assets.map (·.id) ++ db.tagIds ++ db.listIds ++
  db.apiKeys.map (·.id) ++ db.customPrompts.map (·.id) ++
  db.feedIds ++ db.rssFeedImports.map (·.id)

/-- A successful `nodupBy` check means any two distinct positions of the
list carry different keys. -/
theorem nodupBy_pairwise {α β : Type} [DecidableEq β] (k : α → β) :
    ∀ l : List α, nodupBy k l = true → l.Pairwise fun a b => k a ≠ k b := by
  intro l
  induction l with
  | nil => intro _; exact List.Pairwise.nil
  | cons x xs ih =>
    intro h
    simp only [nodupBy, Bool.and_eq_true, Bool.not_eq_true', List.any_eq_false,
      decide_eq_true_eq] at h
    exact List.Pairwise.cons (fun b hb heq => h.1 b hb heq.symm) (ih h.2)

/-- Splitting of `DB.wf` into its per-table conjuncts. -/
theorem wf_parts (db : DB) (h : db.wf = true) :
    usersWf db = true ∧ bookmarksWf db = true ∧ bookmarkLinksWf db = true ∧
    bookmarkTextsWf db = true ∧ bookmarkAssetsWf db = true ∧
    assetsWf db = true ∧ bookmarkTagsWf db = true ∧
    tagsOnBookmarksWf db = true ∧ bookmarkListsWf db = true ∧
    bookmarksInListsWf db = true ∧ apiKeysWf db = true ∧
    customPromptsWf db = true ∧ rssFeedsWf db = true ∧
    rssFeedImportsWf db = true := by
  simp only [DB.wf, Bool.and_eq_true] at h
  tauto

/-! Concrete states used as witnesses and counterexamples. -/

/-- Sample user `u1`. -/
def user1 : User :=
  { id := "u1", name := "alice", email := "alice@example.com",
    emailVerified := none, image := none, password := none,
    role := some .admin }

/-- Sample user `u2`, owning no rows. -/
def user2 : User :=
  { id := "u2", name := "bob", email := "bob@example.com",
    emailVerified := none, image := none, password := none,
    role := some .user }

/-- Sample link bookmark `b1` owned by `u1`. -/
def bm1 : Bookmark :=
  { id := "b1", createdAt := 0, title := some "home", archived := false,
    favourited := true, userId := "u1", taggingStatus := some .success,
    summary := none, note := none, type := .link }

/-- Link sub-record of bookmark `b1` (same `id`, as in the schema). -/
def link1 : BookmarkLink :=
  { id := "b1", url := "https://example.com", title := none,
    description := none, imageUrl := none, favicon := none, content := none,
    htmlContent := none, crawledAt := none, crawlStatus := some .pending }

/-- Text sub-record also keyed by bookmark id `b1`. -/
def text1 : BookmarkText :=
  { id := "b1", text := some "a note", sourceUrl := none }

/-- Sample tag `t1` owned by `u1`. -/
def tag1 : BookmarkTag :=
  { id := "t1", name := "news", createdAt := 0, userId := "u1" }

/-- Sample attachment of tag `t1` to bookmark `b1`. -/
def tob1 : TagOnBookmark :=
  { bookmarkId := "b1", tagId := "t1", attachedAt := none,
    attachedBy := .human }

/-- Sample root list `p1` of user `u1`. -/
def parentList : BookmarkList :=
  { id := "p1", name := "reading", icon := "star", createdAt := 0,
    userId := "u1", parentId := none }

/-- Sample child list `c1`, whose parent is `p1`. -/
def childList : BookmarkList :=
  { id := "c1", name := "later", icon := "dot", createdAt := 1,
    userId := "u1", parentId := some "p1" }

/-- Sample membership of bookmark `b1` in list `p1`. -/
def bil1 : BookmarkInList :=
  { bookmarkId := "b1", listId := "p1", addedAt := none }

/-- Sample API key of user `u1`. -/
def key1 : ApiKey :=
  { id := "k1", name := "cli", createdAt := 0, keyId := "kid1",
    keyHash := "hash1", userId := "u1" }

/-- Sample asset attached to bookmark `b1`, owned by `u1`. -/
def asset1 : Asset :=
  { id := "as1", assetType := .linkScreenshot, size := 10,
    contentType := none, fileName := none, bookmarkId := some "b1",
    userId := "u1" }

/-- Sample custom prompt of user `u1`. -/
def prompt1 : CustomPrompt :=
  { id := "cp1", text := "summarize briefly", enabled := true,
    appliesTo := .all, createdAt := 0, userId := "u1" }

/-- Sample RSS feed `f1` of user `u1`. -/
def feed1 : RssFeed :=
  { id := "f1", name := "blog", url := "https://example.com/rss",
    createdAt := 0, lastFetchedAt := none,
    lastFetchedStatus := some .pending, userId := "u1" }

/-- Sample RSS feed import of entry `e1` from feed `f1`. -/
def import1 : RssFeedImport :=
  { id := "i1", createdAt := 0, entryId := "e1", rssFeedId := "f1",
    bookmarkId := none }

/-- A well-formed state populating every application table. -/
def sampleDb : DB :=
  { users := [user1, user2], bookmarks := [bm1], bookmarkLinks := [link1],
    bookmarkTexts := [], bookmarkAssets := [], assets := [asset1],
    bookmarkTags := [tag1], tagsOnBookmarks := [tob1],
    bookmarkLists := [parentList, childList], bookmarksInLists := [bil1],
    apiKeys := [key1], customPrompts := [prompt1], rssFeeds := [feed1],
    rssFeedImports := [import1] }

/-- A list that is its own parent. -/
def selfList : BookmarkList :=
  { id := "l1", name := "loop", icon := "circle", createdAt := 0,
    userId := "u1", parentId := some "l1" }

/-- A state whose only list is its own parent. -/
def selfParentDb : DB :=
  { users := [user1], bookmarks := [], bookmarkLinks := [],
    bookmarkTexts := [], bookmarkAssets := [], assets := [],
    bookmarkTags := [], tagsOnBookmarks := [], bookmarkLists := [selfList],
    bookmarksInLists := [], apiKeys := [], customPrompts := [],
    rssFeeds := [], rssFeedImports := [] }

/-- A state in which bookmark `b1` has both a link sub-record and a text
sub-record (and therefore three rows — the bookmark and its two
sub-records — share the id `b1`). -/
def dualRecordDb : DB :=
  { users := [user1], bookmarks := [bm1], bookmarkLinks := [link1],
    bookmarkTexts := [text1], bookmarkAssets := [], assets := [],
    bookmarkTags := [], tagsOnBookmarks := [], bookmarkLists := [],
    bookmarksInLists := [], apiKeys := [], customPrompts := [],
    rssFeeds := [], rssFeedImports := [] }

/-- Insert values for a bookmark that omits every optional column. -/
def sampleInsert : BookmarkInsert :=
  { userId := "u1", type := .text }

/-- State obtained from `sampleDb` by inserting `sampleInsert` with
generated id `b9` at time `7`. -/
def sampleDbAfter : DB :=
  { sampleDb with
    bookmarks := sampleDb.bookmarks ++ [mkBookmarkRow "b9" 7 sampleInsert] }

/-- A second import row for the same feed `f1` and entry `e1` as
`import1`. -/
def import2 : RssFeedImport :=
  { id := "i2", createdAt := 5, entryId := "e1", rssFeedId := "f1",
    bookmarkId := none }

/-- A second attachment row for the same pair (`b1`, `t1`) as `tob1`. -/
def tob2 : TagOnBookmark :=
  { bookmarkId := "b1", tagId := "t1", attachedAt := some 3,
    attachedBy := .ai }

/-! Claim theorems. -/

/-- C1: in every state satisfying the schema's referential rules, deleting a
user removes every row the user owns; afterwards no row of `bookmarks`,
`bookmarkTags`, `bookmarkLists`, `apiKeys`, `assets`, `customPrompts` or
`rssFeeds` carries the deleted user's id. -/
theorem userDelete_removes_owned_rows (db : DB) (uid : String)
    (_h : db.wf = true) :
    (∀ b ∈ (deleteUser db uid).bookmarks, b.userId ≠ uid) ∧
    (∀ t ∈ (deleteUser db uid).bookmarkTags, t.userId ≠ uid) ∧
    (∀ l ∈ (deleteUser db uid).bookmarkLists, l.userId ≠ uid) ∧
    (∀ k ∈ (deleteUser db uid).apiKeys, k.userId ≠ uid) ∧
    (∀ a ∈ (deleteUser db uid).assets, a.userId ≠ uid) ∧
    (∀ p ∈ (deleteUser db uid).customPrompts, p.userId ≠ uid) ∧
    (∀ f ∈ (deleteUser db uid).rssFeeds, f.userId ≠ uid) := by
  refine ⟨?_, ?_, ?_, ?_, ?_, ?_, ?_⟩
  · intro b hb
    simp only [deleteUser, List.mem_filter] at hb
    simpa using hb.2
  · intro t ht
    simp only [deleteUser, List.mem_filter] at ht
    simpa using ht.2
  · intro l hl
    simp only [deleteUser, List.mem_map] at hl
    obtain ⟨l0, hl0, rfl⟩ := hl
    have h2 := (List.mem_filter.mp hl0).2
    split <;> simpa using h2
  · intro k hk
    simp only [deleteUser, List.mem_filter] at hk
    simpa using hk.2
  · intro a ha
    simp only [deleteUser, List.mem_filter, Bool.and_eq_true] at ha
    simpa using ha.2.1
  · intro p hp
    simp only [deleteUser, List.mem_filter] at hp
    simpa using hp.2
  · intro f hf
    simp only [deleteUser, List.mem_filter] at hf
    simpa using hf.2

/-- C1 witness: evaluating the theorem on `sampleDb` with user `u2` (the
bookmark `bm1`, owned by `u1`, survives the deletion and indeed does not
carry `u2`). -/
theorem userDelete_removes_owned_rows_inst : bm1.userId ≠ "u2" :=
  (userDelete_removes_owned_rows sampleDb "u2" (by decide)).1 bm1 (by decide)

/-- C4: there is a state satisfying every constraint the schema declares in
which a `bookmarkLists` row is its own ancestor via `parentId` (here,
its own parent): the schema enforces no cycle-prevention. -/
theorem list_cycle_satisfies_constraints :
    selfParentDb.wf = true ∧
    selfList ∈ selfParentDb.bookmarkLists ∧
    selfList.parentId = some selfList.id := by
  refine ⟨by decide, by decide, rfl⟩

/-- C5: deleting a bookmark also deletes its 1:1 extension rows; afterwards
no row keyed by that bookmark's id remains in `bookmarkLinks`,
`bookmarkTexts` or `bookmarkAssets`. -/
theorem bookmarkDelete_removes_subrecords (db : DB) (bid : String) :
    (∀ l ∈ (deleteBookmark db bid).bookmarkLinks, l.id ≠ bid) ∧
    (∀ t ∈ (deleteBookmark db bid).bookmarkTexts, t.id ≠ bid) ∧
    (∀ a ∈ (deleteBookmark db bid).bookmarkAssets, a.id ≠ bid) := by
  refine ⟨?_, ?_, ?_⟩ <;> intro x hx <;>
    · simp only [deleteBookmark, List.mem_filter] at hx
      simpa using hx.2

/-- C5 witness: evaluating the theorem on `sampleDb` with bookmark id `b2`
(the link row `link1`, keyed by `b1`, survives and is not keyed by
`b2`). -/
theorem bookmarkDelete_removes_subrecords_inst : link1.id ≠ "b2" :=
  (bookmarkDelete_removes_subrecords sampleDb "b2").1 link1 (by decide)

/-- C6 counterexample: in the constraint-satisfying state `selfParentDb`
the list `l1` has a non-null `parentId` (itself); deleting that parent
list deletes `l1` instead of keeping it with `parentId` null, refuting
the claim for self-parenting rows. -/
theorem listDelete_self_parent_cex :
    selfParentDb.wf = true ∧
    selfList ∈ selfParentDb.bookmarkLists ∧
    selfList.parentId = some "l1" ∧
    (deleteList selfParentDb "l1").bookmarkLists = [] := by
  refine ⟨by decide, by decide, rfl, by decide⟩

/-- C6 (amended): for every list row `L` whose `parentId` names a different
list, deleting that parent keeps `L` with `parentId` set to null and
every other field (`id`, `name`, `icon`, `createdAt`, `userId`)
unchanged. -/
theorem listDelete_sets_child_parent_null (db : DB) (pid : String)
    (L : BookmarkList) (hmem : L ∈ db.bookmarkLists)
    (hpar : L.parentId = some pid) (hne : L.id ≠ pid) :
    { L with parentId := none } ∈ (deleteList db pid).bookmarkLists := by
  simp only [deleteList]
  refine List.mem_map.mpr ⟨L, List.mem_filter.mpr ⟨hmem, by simpa using hne⟩, ?_⟩
  simp [hpar]

/-- C6 witness: deleting list `p1` from `sampleDb` keeps its child `c1`
with `parentId` nulled and all other fields unchanged. -/
theorem listDelete_sets_child_parent_null_inst :
    { childList with parentId := none } ∈
      (deleteList sampleDb "p1").bookmarkLists :=
  listDelete_sets_child_parent_null sampleDb "p1" childList (by decide) rfl
    (by decide)

/-- C2 counterexample: `dualRecordDb` satisfies every declared schema
constraint, yet bookmark `b1` simultaneously has a link sub-record and a
text sub-record, refuting the claim that at most one of the three child
tables can contain a row keyed by a given bookmark id. -/
theorem bookmark_two_subrecords_cex :
    dualRecordDb.wf = true ∧
    (dualRecordDb.bookmarks.any fun b => b.id == "b1") = true ∧
    (dualRecordDb.bookmarkLinks.any fun l => l.id == "b1") = true ∧
    (dualRecordDb.bookmarkTexts.any fun t => t.id == "b1") = true := by
  refine ⟨by decide, by decide, by decide, by decide⟩

/-- C2 (amended): within each of the three child tables a bookmark id keys
at most one row (each table's primary key), but the schema does not
prevent the same bookmark id from appearing in more than one child
table. -/
theorem subrecord_unique_within_each_table (db : DB) (h : db.wf = true) :
    db.bookmarkLinks.Pairwise (fun a b => a.id ≠ b.id) ∧
    db.bookmarkTexts.Pairwise (fun a b => a.id ≠ b.id) ∧
    db.bookmarkAssets.Pairwise (fun a b => a.id ≠ b.id) := by
  obtain ⟨-, -, hl, ht, hba, -⟩ := wf_parts db h
  simp only [bookmarkLinksWf, bookmarkTextsWf, bookmarkAssetsWf,
    Bool.and_eq_true] at hl ht hba
  exact ⟨nodupBy_pairwise _ _ hl.1, nodupBy_pairwise _ _ ht.1,
    nodupBy_pairwise _ _ hba.1⟩

/-- C2 witness: evaluating the amended theorem on `dualRecordDb`. -/
theorem subrecord_unique_within_each_table_inst :
    dualRecordDb.bookmarkLinks.Pairwise (fun a b => a.id ≠ b.id) ∧
    dualRecordDb.bookmarkTexts.Pairwise (fun a b => a.id ≠ b.id) ∧
    dualRecordDb.bookmarkAssets.Pairwise (fun a b => a.id ≠ b.id) :=
  subrecord_unique_within_each_table dualRecordDb (by decide)

/-- C3 counterexample: `dualRecordDb` satisfies every declared schema
constraint, yet its id pool taken across all tables has duplicates (the
bookmark `b1` and its two sub-records share the id), refuting global
uniqueness of ids across tables. -/
theorem ids_not_globally_unique_cex :
    dualRecordDb.wf = true ∧
    nodupBy (fun s => s) (allIds dualRecordDb) = false := by
  refine ⟨by decide, by decide⟩

/-- C3 (amended): row ids are unique within each table (each table's
primary key); across tables the schema does not enforce uniqueness — in
particular the 1:1 sub-record tables reuse the parent bookmark's id. -/
theorem ids_unique_per_table (db : DB) (h : db.wf = true) :
    db.users.Pairwise (fun a b => a.id ≠ b.id) ∧
    db.bookmarks.Pairwise (fun a b => a.id ≠ b.id) ∧
    db.bookmarkLinks.Pairwise (fun a b => a.id ≠ b.id) ∧
    db.bookmarkTexts.Pairwise (fun a b => a.id ≠ b.id) ∧
    db.bookmarkAssets.Pairwise (fun a b => a.id ≠ b.id) ∧
    db.assets.Pairwise (fun a b => a.id ≠ b.id) ∧
    db.bookmarkTags.Pairwise (fun a b => a.id ≠ b.id) ∧
    db.bookmarkLists.Pairwise (fun a b => a.id ≠ b.id) ∧
    db.apiKeys.Pairwise (fun a b => a.id ≠ b.id) ∧
    db.customPrompts.Pairwise (fun a b => a.id ≠ b.id) ∧
    db.rssFeeds.Pairwise (fun a b => a.id ≠ b.id) ∧
    db.rssFeedImports.Pairwise (fun a b => a.id ≠ b.id) := by
  obtain ⟨hu, hb, hl, ht, hba, has, htg, -, hls, -, hak, hcp, hfs, him⟩ :=
    wf_parts db h
  simp only [usersWf, bookmarksWf, bookmarkLinksWf, bookmarkTextsWf,
    bookmarkAssetsWf, assetsWf, bookmarkTagsWf, bookmarkListsWf, apiKeysWf,
    customPromptsWf, rssFeedsWf, rssFeedImportsWf,
    Bool.and_eq_true] at hu hb hl ht hba has htg hls hak hcp hfs him
  exact ⟨nodupBy_pairwise _ _ hu.1, nodupBy_pairwise _ _ hb.1,
    nodupBy_pairwise _ _ hl.1, nodupBy_pairwise _ _ ht.1,
    nodupBy_pairwise _ _ hba.1, nodupBy_pairwise _ _ has.1.1,
    nodupBy_pairwise _ _ htg.1.1, nodupBy_pairwise _ _ hls.1.1,
    nodupBy_pairwise _ _ hak.1.1.1, nodupBy_pairwise _ _ hcp.1,
    nodupBy_pairwise _ _ hfs.1, nodupBy_pairwise _ _ him.1.1.1⟩

/-- C3 witness: evaluating the amended theorem on `sampleDb`. -/
theorem ids_unique_per_table_inst :
    sampleDb.users.Pairwise (fun a b => a.id ≠ b.id) ∧
    sampleDb.bookmarks.Pairwise (fun a b => a.id ≠ b.id) ∧
    sampleDb.bookmarkLinks.Pairwise (fun a b => a.id ≠ b.id) ∧
    sampleDb.bookmarkTexts.Pairwise (fun a b => a.id ≠ b.id) ∧
    sampleDb.bookmarkAssets.Pairwise (fun a b => a.id ≠ b.id) ∧
    sampleDb.assets.Pairwise (fun a b => a.id ≠ b.id) ∧
    sampleDb.bookmarkTags.Pairwise (fun a b => a.id ≠ b.id) ∧
    sampleDb.bookmarkLists.Pairwise (fun a b => a.id ≠ b.id) ∧
    sampleDb.apiKeys.Pairwise (fun a b => a.id ≠ b.id) ∧
    sampleDb.customPrompts.Pairwise (fun a b => a.id ≠ b.id) ∧
    sampleDb.rssFeeds.Pairwise (fun a b => a.id ≠ b.id) ∧
    sampleDb.rssFeedImports.Pairwise (fun a b => a.id ≠ b.id) :=
  ids_unique_per_table sampleDb (by decide)

/-- C7: in every constraint-satisfying state no two `rssFeedImports` rows
share both `rssFeedId` and `entryId`, and inserting a second import row
for an already-imported (feed, entry id) pair fails. -/
theorem rssImport_dedup (db : DB) (h : db.wf = true) :
    db.rssFeedImports.Pairwise
      (fun a b => ¬(a.rssFeedId = b.rssFeedId ∧ a.entryId = b.entryId)) ∧
    ∀ r r0, r0 ∈ db.rssFeedImports → r.rssFeedId = r0.rssFeedId →
      r.entryId = r0.entryId → insertRssFeedImport db r = none := by
  constructor
  · have hw := (wf_parts db h).2.2.2.2.2.2.2.2.2.2.2.2.2
    simp only [rssFeedImportsWf, Bool.and_eq_true] at hw
    refine (nodupBy_pairwise _ _ hw.1.1.2).imp ?_
    intro a b hne hand
    exact hne (by rw [hand.1, hand.2])
  · intro r r0 hr0 hf he
    have hany : (db.rssFeedImports.any fun x =>
        x.rssFeedId == r.rssFeedId && x.entryId == r.entryId) = true :=
      List.any_eq_true.mpr ⟨r0, hr0, by simp [hf, he]⟩
    simp [insertRssFeedImport, hany]

/-- C7 witness: inserting `import2` (same feed `f1`, same entry `e1` as
`import1`) into `sampleDb` fails. -/
theorem rssImport_dedup_inst : insertRssFeedImport sampleDb import2 = none :=
  (rssImport_dedup sampleDb (by decide)).2 import2 import1 (by decide) rfl rfl

/-- C9: in every constraint-satisfying state a tag is attached to a
bookmark at most once — no two `tagsOnBookmarks` rows share the
`(bookmarkId, tagId)` pair — and re-attaching an already-attached tag
fails. -/
theorem tagAttach_unique (db : DB) (h : db.wf = true) :
    db.tagsOnBookmarks.Pairwise
      (fun a b => ¬(a.bookmarkId = b.bookmarkId ∧ a.tagId = b.tagId)) ∧
    ∀ t t0, t0 ∈ db.tagsOnBookmarks → t.bookmarkId = t0.bookmarkId →
      t.tagId = t0.tagId → insertTagOnBookmark db t = none := by
  constructor
  · have hw := (wf_parts db h).2.2.2.2.2.2.2.1
    simp only [tagsOnBookmarksWf, Bool.and_eq_true] at hw
    refine (nodupBy_pairwise _ _ hw.1.1).imp ?_
    intro a b hne hand
    exact hne (by rw [hand.1, hand.2])
  · intro t t0 ht0 hb ht
    have hany : (db.tagsOnBookmarks.any fun x =>
        x.bookmarkId == t.bookmarkId && x.tagId == t.tagId) = true :=
      List.any_eq_true.mpr ⟨t0, ht0, by simp [hb, ht]⟩
    simp [insertTagOnBookmark, hany]

/-- C9 witness: re-attaching tag `t1` to bookmark `b1` (already attached by
`tob1`) in `sampleDb` fails. -/
theorem tagAttach_unique_inst : insertTagOnBookmark sampleDb tob2 = none :=
  (tagAttach_unique sampleDb (by decide)).2 tob2 tob1 (by decide) rfl rfl

/-- C8: an insert into `bookmarks` that omits every optional column stores
a row that is unarchived, unfavourited and pending tagging, with
`createdAt` set to the insertion time. -/
theorem bookmarkInsert_defaults (db db2 : DB) (genId : String) (now : Nat)
    (i : BookmarkInsert) (harch : i.archived = none)
    (hfav : i.favourited = none) (htag : i.taggingStatus = none)
    (hcr : i.createdAt = none)
    (hins : insertBookmark db genId now i = some db2) :
    mkBookmarkRow genId now i ∈ db2.bookmarks ∧
    (mkBookmarkRow genId now i).archived = false ∧
    (mkBookmarkRow genId now i).favourited = false ∧
    (mkBookmarkRow genId now i).taggingStatus = some StatusEnum.pending ∧
    (mkBookmarkRow genId now i).createdAt = now := by
  refine ⟨?_, ?_, ?_, ?_, ?_⟩
  · simp only [insertBookmark] at hins
    split at hins
    · exact Option.noConfusion hins
    · split at hins
      · exact Option.noConfusion hins
      · injection hins with h2
        subst h2
        simp
  · simp [mkBookmarkRow, harch]
  · simp [mkBookmarkRow, hfav]
  · simp [mkBookmarkRow, htag]
  · simp [mkBookmarkRow, hcr]

/-- C8 witness: inserting `sampleInsert` (all optional columns omitted)
into `sampleDb` with generated id `b9` at time `7`. -/
theorem bookmarkInsert_defaults_inst :
    mkBookmarkRow "b9" 7 sampleInsert ∈ sampleDbAfter.bookmarks ∧
    (mkBookmarkRow "b9" 7 sampleInsert).archived = false ∧
    (mkBookmarkRow "b9" 7 sampleInsert).favourited = false ∧
    (mkBookmarkRow "b9" 7 sampleInsert).taggingStatus =
      some StatusEnum.pending ∧
    (mkBookmarkRow "b9" 7 sampleInsert).createdAt = 7 :=
  bookmarkInsert_defaults sampleDb sampleDbAfter "b9" 7 sampleInsert rfl rfl
    rfl rfl (by decide)

/-- C10: when the active-tab query yields no tab, or a tab whose URL is
absent (or empty, which the component's truthiness test also rejects),
`runSave` issues no `createBookmark` call and records the error message
`noUrlError`; otherwise it issues exactly one `createBookmark` call with
type `"link"` and the current tab's URL. -/
theorem savePage_runSave_spec (tabs : List Tab) :
    ((tabs.head? = none ∨
        ∃ t, tabs.head? = some t ∧ (t.url = none ∨ t.url = some "")) →
      runSave tabs = { error := some noUrlError, requests := [] }) ∧
    (∀ t u, tabs.head? = some t → t.url = some u → u ≠ "" →
      runSave tabs =
        { error := none, requests := [{ type := "link", url := u }] }) := by
  constructor
  · rintro (hnone | ⟨t, ht, hurl | hurl⟩)
    · simp [runSave, hnone]
    · simp [runSave, ht, hurl]
    · simp [runSave, ht, hurl]
  · intro t u ht hu hne
    simp [runSave, ht, hu, hne]

/-- C10 witness: an empty tab query records the error and issues no call;
a tab with URL `https://example.com` issues exactly one link-typed
`createBookmark` call for it. -/
theorem savePage_runSave_spec_inst :
    runSave [] = { error := some noUrlError, requests := [] } ∧
    runSave [{ url := some "https://example.com" }] =
      { error := none,
        requests := [{ type := "link", url := "https://example.com" }] } :=
  ⟨(savePage_runSave_spec []).1 (Or.inl rfl),
    (savePage_runSave_spec [{ url := some "https://example.com" }]).2
      { url := some "https://example.com" } "https://example.com" rfl rfl
      (by decide)⟩

end Hoarder
